import Mathlib

/-!
Verification of the learn-by-doing backend's workflow core.

The Python source is shallowly embedded: Python strings become `List Char`
(so that Python's `find`/slicing/`strip` semantics are explicit), Python
floats become exact rationals `ℚ`, fallible code returns `Except` carrying
the exception message, and the mutable `WorkflowState` dict becomes the
structure `MState` passed explicitly.  External collaborators (the remote
generation endpoint, the search provider, `python-slugify`, the HTTP probe
library) are parameters of the embedded functions: each embedded stage takes
the collaborator's observable outcome as an argument.
-/

namespace LBD

/-- Decidable equality for `Except`, used to evaluate concrete runs. -/
instance {ε α : Type} [DecidableEq ε] [DecidableEq α] : DecidableEq (Except ε α) := fun a b =>
  match a, b with
  | .error e, .error f =>
    if h : e = f then .isTrue (by rw [h]) else .isFalse (by intro hc; cases hc; exact h rfl)
  | .error _, .ok _ => .isFalse (by intro h; cases h)
  | .ok _, .error _ => .isFalse (by intro h; cases h)
  | .ok x, .ok y =>
    if h : x = y then .isTrue (by rw [h]) else .isFalse (by intro hc; cases hc; exact h rfl)

/-! ## Python string primitives (on `List Char`) -/

/-- Python `str.strip()` with no argument: remove whitespace from both ends. -/
def pyStrip (s : List Char) : List Char :=
  ((s.dropWhile Char.isWhitespace).reverse.dropWhile Char.isWhitespace).reverse

/-- `listStartsWith s pat`: `pat` is an initial segment of `s`. -/
def listStartsWith : List Char → List Char → Bool
  | _, [] => true
  | [], _ :: _ => false
  | c :: cs, p :: ps => c = p && listStartsWith cs ps

/-- Python `s.find(pat)` as an `Option`: lowest index at which `pat` occurs. -/
def findSub : List Char → List Char → Option Nat
  | _, [] => some 0
  | [], _ :: _ => none
  | c :: cs, p :: ps =>
    if listStartsWith (c :: cs) (p :: ps) then some 0
    else (findSub cs (p :: ps)).map (· + 1)

/-- Python `pat in s`. -/
def containsSub (s pat : List Char) : Bool := (findSub s pat).isSome

/-- Python `s.find(pat, start)`: search in `s[start:]`, absolute index. -/
def findFrom (s pat : List Char) (start : Nat) : Option Nat :=
  (findSub (s.drop start) pat).map (· + start)

/-- Python `s[a:b]` for non-negative bounds (clamped, empty when `b ≤ a`). -/
def pySlice (s : List Char) (a b : Nat) : List Char := (s.take b).drop a

/-- The backtick character (written via its code point). -/
def backtick : Char := Char.ofNat 96

/-- The opening curly-brace character. -/
def lbrace : Char := Char.ofNat 123

/-- The closing curly-brace character. -/
def rbrace : Char := Char.ofNat 125

/-- A markdown code fence: three backticks. -/
def fence : List Char := [backtick, backtick, backtick]

/-- A fenced json block opener: three backticks followed by `json`. -/
def fenceJson : List Char := fence ++ "json".data

/-! ## The JSON-extraction pipeline of `OpenRouterClient.generate_json`
(`app/core/llm.py`, lines 121-158) -/

/-- The brace-matching loop of `generate_json`: walk the characters, tracking
brace depth (starting from the given `depth`), and return the offset `i` of
the closing brace that brings the depth back to zero, if any.  Mirrors the
`for i, char in enumerate(response[start:])` loop. -/
def braceScan : List Char → Int → Nat → Option Nat
  | [], _, _ => none
  | c :: cs, depth, i =>
    if c = lbrace then braceScan cs (depth + 1) (i + 1)
    else if c = rbrace then
      if depth - 1 = 0 then some i else braceScan cs (depth - 1) (i + 1)
    else braceScan cs depth (i + 1)

/-- Outcome of the extraction pipeline: either the cleaned JSON text handed to
`json.loads`, or the `LLMException("Empty response after cleaning")` raised
when the cleaned text is empty. -/
inductive ExtractOutcome where
  | emptyOutput
  | extracted (s : List Char)
deriving DecidableEq

/-- The cleanup applied by `generate_json` after the initial `strip()`:
(a) if a fenced json block opener occurs, take up to the next fence (if one
exists) and strip; (b) else if any fence occurs, take up to the next fence
and strip; then, if the text does not start with an opening brace, scan from
the first opening brace to its matching closing brace; finally strip again
and fail if empty. -/
def extractJsonCore (r0 : List Char) : ExtractOutcome :=
  let r1 :=
    if containsSub r0 fenceJson then
      match findSub r0 fenceJson with
      | some idx =>
        let start := idx + 7
        match findFrom r0 fence start with
        | some e => pyStrip (pySlice r0 start e)
        | none => r0
      | none => r0
    else if containsSub r0 fence then
      match findSub r0 fence with
      | some idx =>
        let start := idx + 3
        match findFrom r0 fence start with
        | some e => pyStrip (pySlice r0 start e)
        | none => r0
      | none => r0
    else r0
  let r2 :=
    if r1.head? = some lbrace then r1
    else
      match findSub r1 [lbrace] with
      | some start =>
        let e :=
          match braceScan (r1.drop start) 0 0 with
          | some i => start + i + 1
          | none => start
        pySlice r1 start e
      | none => r1
  let r3 := pyStrip r2
  if r3 = [] then .emptyOutput else .extracted r3

/-- `generate_json`'s extraction: initial `strip()` then the cleanup pipeline. -/
def extractJson (raw : List Char) : ExtractOutcome :=
  extractJsonCore (pyStrip raw)

/-- The JSON object text used in the specification's extraction examples. -/
def sampleJsonObject : List Char := lbrace :: ("\"a\":1".data ++ [rbrace])

/-- The fenced-block example input of the specification. -/
def sampleFencedInput : List Char :=
  "Here you go:\n".data ++ fenceJson ++ "\n".data ++ sampleJsonObject ++ "\n".data ++ fence

/-- The brace-matching example input of the specification. -/
def sampleBraceInput : List Char :=
  "noise".data ++ sampleJsonObject ++ "tail".data

/-! ## The retry wrapper `OpenRouterClient.generate_with_retry`
(`app/core/llm.py`, lines 192-224)

One call to `generate` is one network attempt; its outcome (returned text or
an `LLMException` message) is supplied by the oracle `outcomes`, indexed by
attempt number.  `_extract_retry_delay` is regex matching over free error
text and is only reached on rate-limit errors; it is passed in as a function
parameter, so every theorem below holds for any such delay extraction. -/

/-- Outcome of one `generate` call: the generated text, or the message of the
`LLMException` it raised. -/
inductive GenOutcome where
  | ok (text : List Char)
  | llmError (msg : List Char)
deriving DecidableEq

/-- `"CONNECTION_ERROR"`, the marker the retry loop greps for. -/
def connectionErrorToken : List Char := "CONNECTION_ERROR".data

/-- `"TIMEOUT_ERROR"`, the marker the retry loop greps for. -/
def timeoutErrorToken : List Char := "TIMEOUT_ERROR".data

/-- `"429"`, the rate-limit marker. -/
def code429Token : List Char := "429".data

/-- `"RATE_LIMITED"`, the rate-limit marker. -/
def rateLimitedToken : List Char := "RATE_LIMITED".data

/-- The `asyncio.sleep` argument chosen for a failed attempt, or `none` when
the code does not sleep (an unrecognised error on the final attempt).
Mirrors the `if`/`elif` chain of `generate_with_retry`. -/
def retrySleep (extractDelay : List Char → ℚ) (maxRetries attempt : Nat)
    (msg : List Char) : Option ℚ :=
  if containsSub msg connectionErrorToken || containsSub msg timeoutErrorToken then
    some (min ((2 : ℚ) ^ attempt) 10)
  else if containsSub msg code429Token || containsSub msg rateLimitedToken then
    some (extractDelay msg)
  else if attempt < maxRetries - 1 then
    some (min ((2 : ℚ) ^ attempt) 30)
  else none

/-- The message of the terminal `LLMException`:
`f"Failed after {max_retries} attempts: {str(last_error)}"`. -/
def failAfterMsg (maxRetries : Nat) (lastError : Option (List Char)) : List Char :=
  "Failed after ".data ++ (toString maxRetries).data ++ " attempts: ".data ++
    (match lastError with
     | some m => m
     | none => "None".data)

/-- Observable trace of one `generate_with_retry` call: how many times
`generate` was invoked, the sleeps performed (in order), and the final
result (returned text, or the raised exception's message). -/
structure RetryTrace where
  calls : Nat
  sleeps : List ℚ
  result : Except (List Char) (List Char)
deriving DecidableEq

/-- The `for attempt in range(max_retries)` loop, structurally recursive on
the number of remaining iterations. -/
def retryLoop (outcomes : Nat → GenOutcome) (extractDelay : List Char → ℚ)
    (maxRetries : Nat) : Nat → Nat → Option (List Char) → RetryTrace
  | 0, _, lastError => ⟨0, [], .error (failAfterMsg maxRetries lastError)⟩
  | remaining + 1, attempt, _ =>
    match outcomes attempt with
    | .ok t => ⟨1, [], .ok t⟩
    | .llmError msg =>
      let rest := retryLoop outcomes extractDelay maxRetries remaining (attempt + 1) (some msg)
      ⟨rest.calls + 1,
        (match retrySleep extractDelay maxRetries attempt msg with
         | some d => [d]
         | none => []) ++ rest.sleeps,
        rest.result⟩

/-- `generate_with_retry(messages, max_retries)`: run the attempt loop from
attempt 0 with no recorded last error. -/
def generate_with_retry (outcomes : Nat → GenOutcome) (extractDelay : List Char → ℚ)
    (maxRetries : Nat) : RetryTrace :=
  retryLoop outcomes extractDelay maxRetries maxRetries 0 none

/-! ## Configuration defaults (`app/config.py`) -/

namespace Settings

/-- `Settings.MAX_ITERATIONS` default ("reduced for 20 RPM limit"). -/
def MAX_ITERATIONS : Nat := 2

/-- `Settings.QUALITY_THRESHOLD` default. -/
def QUALITY_THRESHOLD : ℚ := 0.85

end Settings

/-! ## Rounding (Python `round(x, 2)` on exact rationals) -/

/-- Round a rational to the nearest integer, ties to the even integer —
Python's rounding mode (banker's rounding) on the exact value. -/
def roundHalfToEven (q : ℚ) : ℤ :=
  let f := ⌊q⌋
  if q - f < 1 / 2 then f
  else if 1 / 2 < q - f then f + 1
  else if f % 2 = 0 then f else f + 1

/-- Python `round(x, 2)`: round to the nearest hundredth. -/
def pyRound2 (q : ℚ) : ℚ := (roundHalfToEven (q * 100) : ℚ) / 100

/-! ## The curriculum document tree (generated JSON, as read by the code) -/

/-- A resource dict inside a task; every key the code reads is optional
because the generator may omit it (`type` is spelled `rtype`: `type` is a
Lean keyword). -/
structure MResource where
  title : Option String
  url : Option String
  rtype : Option String
  description : Option String
deriving DecidableEq

/-- A task dict; only the keys the code reads are modelled (`title` for the
documentation search, `resources` for enrichment). -/
structure MTask where
  title : Option String
  resources : Option (List MResource)
deriving DecidableEq

/-- A phase dict: `id` and the task list, each possibly absent. -/
structure MPhase where
  id : Option String
  tasks : Option (List MTask)
deriving DecidableEq

/-- The generated curriculum document; `none` marks an absent key. -/
structure GenDoc where
  id : Option String
  title : Option String
  phases : Option (List MPhase)
  total_tasks : Option Int
  estimated_hours : Option ℚ
deriving DecidableEq

/-! ## Workflow state (`app/workflow/state.py`) and the `BaseAgent` helpers -/

/-- One entry of `state["agent_logs"]` as written by `BaseAgent.log_action`
(the free-form `details` dict is diagnostic payload and not modelled). -/
structure LogEntry where
  agent : String
  action : String
  iteration : Nat
deriving DecidableEq

/-- The quality review document returned by the generator for the Quality
Gate; `scores` holds the values of the sub-score dict in iteration order,
and only the length of `violations` is ever read. -/
structure QualityResponse where
  approved : Option Bool
  score : Option ℚ
  scores : Option (List ℚ)
  violations : Option Nat
deriving DecidableEq

/-- The `WorkflowState` dict.  `research_findings` and `expert_feedback` are
payload for prompt text only (a collaborator concern), so just their
presence is modelled; `final_output` is `none` until `finalize_node` stores
the (possibly absent) draft; `completed` records that `completed_at` was
stamped. -/
structure MState where
  topic : String
  research_findings : Option Unit
  draft_curriculum : Option GenDoc
  expert_feedback : Option Unit
  quality_review : Option QualityResponse
  iteration : Nat
  approved : Bool
  final_output : Option (Option GenDoc)
  completed : Bool
  errors : List (List Char)
  agent_logs : List LogEntry
deriving DecidableEq

/-- `create_initial_state`: iteration 0, not approved, empty diagnostics. -/
def create_initial_state (topic : String) : MState :=
  ⟨topic, none, none, none, none, 0, false, none, false, [], []⟩

/-- `BaseAgent.log_action`: append one log entry (recording the current
iteration counter) to `state["agent_logs"]`. -/
def log_action (agent action : String) (s : MState) : MState :=
  { s with agent_logs := s.agent_logs ++ [⟨agent, action, s.iteration⟩] }

/-- `BaseAgent.add_error`: append `f"[{self.name}] {error}"` to
`state["errors"]`. -/
def add_error (agent : String) (err : List Char) (s : MState) : MState :=
  { s with errors := s.errors ++ ["[".data ++ agent.data ++ "] ".data ++ err] }

/-! ## The Quality Gate (`QualityAgent.run`, `app/agents/quality.py`) -/

/-- The `required_keys` loop of `QualityAgent.run`: first missing key among
`approved`, `score`, `scores`, `violations`, if any. -/
def requiredQualityKeyMissing (r : QualityResponse) : Option String :=
  if r.approved = none then some "approved"
  else if r.score = none then some "score"
  else if r.scores = none then some "scores"
  else if r.violations = none then some "violations"
  else none

/-- The body of `QualityAgent.run`'s `try` block after a successful
generation: key validation (a missing key raises `ValueError`), the average
over the sub-score dict's values (an empty dict raises `ZeroDivisionError`,
mirrored by the emptiness test), `response["score"] = round(avg_score, 2)`,
and the approval conjunction in the code's order.  Returns the mutated
response together with the computed `approved`. -/
def qualityBody (threshold : ℚ) (resp : QualityResponse) :
    Except (List Char) (QualityResponse × Bool) :=
  match requiredQualityKeyMissing resp with
  | some k => .error ("Missing required key in quality review: ".data ++ k.data)
  | none =>
    let scores := resp.scores.getD []
    if scores.length = 0 then .error "division by zero".data
    else
      let avg := scores.sum / (scores.length : ℚ)
      let score2 := pyRound2 avg
      let approvedC := resp.approved.getD false
        && decide (threshold ≤ score2)
        && scores.all fun v => decide ((0.8 : ℚ) ≤ v)
      .ok ({ resp with score := some score2, approved := some approvedC }, approvedC)

/-- `QualityAgent.run`: log the start, run the generation (outcome supplied
by `gen`), on failure record the error, on success store the mutated review
and the recomputed `approved` in the state, log completion, and finally
force `state["approved"] = True` when unapproved at `iteration >= 5` (a
hard-coded literal in the source). -/
def qualityRun (threshold : ℚ) (gen : Except (List Char) QualityResponse)
    (s : MState) : MState :=
  let s1 := log_action "QualityAgent" "Starting quality review" s
  match gen with
  | .error e => add_error "QualityAgent" ("Quality review failed: ".data ++ e) s1
  | .ok resp =>
    match qualityBody threshold resp with
    | .error e => add_error "QualityAgent" ("Quality review failed: ".data ++ e) s1
    | .ok (resp2, approvedC) =>
      let s2 := { s1 with quality_review := some resp2, approved := approvedC }
      let s3 := log_action "QualityAgent" "Quality review completed" s2
      if !approvedC && decide (5 ≤ s3.iteration) then { s3 with approved := true } else s3

/-- The approval predicate exactly as the SPEC's C1 sentence states it (for
comparison with the code): stage bit ∧ every sub-score ≥ 0.8 ∧ exact,
unrounded mean ≥ threshold. -/
def specApproved (threshold : ℚ) (reported : Bool) (scores : List ℚ) : Bool :=
  reported && (scores.all fun v => decide ((0.8 : ℚ) ≤ v))
    && decide (threshold ≤ scores.sum / (scores.length : ℚ))

/-! ## The Structuring stage (`CurriculumAgent.run`, `app/agents/curriculum.py`)

The slug normalizer (`python-slugify`) and the search provider are external
collaborators, passed in as functions `slug` and `search`. -/

/-- One search-provider result (`{title, url, snippet}` dict, keys optional). -/
structure SearchItem where
  title : Option String
  url : Option String
  snippet : Option String
deriving DecidableEq

/-- The `required_keys` loop of `CurriculumAgent.run`: first missing key
among `id`, `title`, `phases`, `total_tasks`, `estimated_hours`, if any. -/
def requiredCurriculumKeyMissing (d : GenDoc) : Option String :=
  if d.id = none then some "id"
  else if d.title = none then some "title"
  else if d.phases = none then some "phases"
  else if d.total_tasks = none then some "total_tasks"
  else if d.estimated_hours = none then some "estimated_hours"
  else none

/-- The `for phase in response["phases"]` loop: raise
`ValueError(f"Phase {phase.get('id')} has no tasks")` at the first phase
whose `tasks` key is absent or holds an empty (falsy) list, otherwise
accumulate the total task count in order. -/
def phasesCheck : List MPhase → Except (List Char) Nat
  | [] => .ok 0
  | p :: rest =>
    match p.tasks with
    | none =>
      .error ("Phase ".data ++ (p.id.getD "None").data ++ " has no tasks".data)
    | some [] =>
      .error ("Phase ".data ++ (p.id.getD "None").data ++ " has no tasks".data)
    | some ts => (phasesCheck rest).map fun n => ts.length + n

/-- The validation/normalization segment of `CurriculumAgent.run` (key check,
`response["id"] = slugify(response["id"])`, phase check, and
`response["total_tasks"] = total_tasks`): the accepted document, or the
raised `ValueError` message. -/
def curriculumValidate (slug : String → String) (d : GenDoc) :
    Except (List Char) GenDoc :=
  match requiredCurriculumKeyMissing d with
  | some k => .error ("Missing required key in curriculum: ".data ++ k.data)
  | none =>
    let d1 := { d with id := some (slug (d.id.getD "")) }
    match phasesCheck (d1.phases.getD []) with
    | .error e => .error e
    | .ok total => .ok { d1 with total_tasks := some (total : Int) }

/-- The per-task resource merge of `_enrich_resources_with_search`: append up
to 2 results whose url is not already present, then cap at 5 resources. -/
def enrichResources (current : List MResource) (results : List SearchItem) :
    List MResource :=
  ((results.take 2).foldl
    (fun acc r =>
      let url := r.url.getD ""
      if acc.any (fun q => q.url = some url) then acc
      else acc ++ [⟨some (r.title.getD "Documentation"), some url,
        some "documentation", some ((r.snippet.getD "").take 100)⟩])
    current).take 5

/-- One task of the enrichment loop: build the documentation query, call the
search collaborator (a thrown error is caught and skips the task), and —
only when results came back non-empty — merge them into the task's
resources and bump the search counter. -/
def enrichTask (topic : String)
    (search : String → Except (List Char) (List SearchItem))
    (count : Nat) (t : MTask) : MTask × Nat :=
  match search (topic ++ " " ++ t.title.getD "" ++ " documentation official") with
  | .error _ => (t, count)
  | .ok results =>
    if results.isEmpty then (t, count)
    else ({ t with resources := some (enrichResources (t.resources.getD []) results) },
          count + 1)

/-- The inner `for task in phase.get("tasks", [])` loop, with the
`if searched_concepts >= 5: break` guard (the break leaves the rest of the
phase's tasks untouched). -/
def enrichTasks (topic : String)
    (search : String → Except (List Char) (List SearchItem)) :
    Nat → List MTask → List MTask × Nat
  | count, [] => ([], count)
  | count, t :: ts =>
    if 5 ≤ count then (t :: ts, count)
    else
      let tc := enrichTask topic search count t
      let rest := enrichTasks topic search tc.2 ts
      (tc.1 :: rest.1, rest.2)

/-- The outer `for phase in curriculum.get("phases", [])` loop of the
enrichment pass, threading the search counter across phases. -/
def enrichPhases (topic : String)
    (search : String → Except (List Char) (List SearchItem)) :
    Nat → List MPhase → List MPhase × Nat
  | count, [] => ([], count)
  | count, p :: ps =>
    match p.tasks with
    | none =>
      let rest := enrichPhases topic search count ps
      (p :: rest.1, rest.2)
    | some ts =>
      let tsc := enrichTasks topic search count ts
      let rest := enrichPhases topic search tsc.2 ps
      ({ p with tasks := some tsc.1 } :: rest.1, rest.2)

/-- `_enrich_resources_with_search`: walk the phase/task tree mutating only
task resource lists; all failures are caught inside, so it is total. -/
def enrichCurriculum (topic : String)
    (search : String → Except (List Char) (List SearchItem))
    (d : GenDoc) : GenDoc :=
  match d.phases with
  | none => d
  | some ps => { d with phases := some (enrichPhases topic search 0 ps).1 }

/-- `CurriculumAgent.run`: log the start, increment the iteration counter
(before the `try` block), then on a successful generation validate and
normalize the document, enrich its resources, store it as the draft, and log
completion; any raised error is recorded via `add_error` instead. -/
def curriculumRun (slug : String → String)
    (search : String → Except (List Char) (List SearchItem))
    (gen : Except (List Char) GenDoc) (s : MState) : MState :=
  let s1 := log_action "CurriculumAgent" "Starting curriculum design" s
  let s2 := { s1 with iteration := s1.iteration + 1 }
  match gen with
  | .error e => add_error "CurriculumAgent" ("Curriculum design failed: ".data ++ e) s2
  | .ok doc =>
    match curriculumValidate slug doc with
    | .error e => add_error "CurriculumAgent" ("Curriculum design failed: ".data ++ e) s2
    | .ok d1 =>
      let d2 := enrichCurriculum s2.topic search d1
      let s3 := { s2 with draft_curriculum := some d2 }
      log_action "CurriculumAgent" "Curriculum design completed" s3

/-- The per-phase task counts of a document (`len(phase["tasks"])`, an absent
`tasks` key counting 0). -/
def taskCounts (d : GenDoc) : List Nat :=
  (d.phases.getD []).map fun p => (p.tasks.getD []).length

/-! ## The Discovery and Technical Review stages

`ResearchAgent.run` and `ExpertAgent.run` write only their own output key
plus diagnostics and never touch `iteration`, `approved` or the draft; their
generation/validation outcome is abstracted to success-or-error (the findings
and feedback payloads feed prompt text only). -/

/-- `ResearchAgent.run`: on success store the findings and log completion;
on any raised error record `f"Research failed: {e}"`. -/
def researchRun (success : Bool) (errMsg : List Char) (s : MState) : MState :=
  let s1 := log_action "ResearchAgent" "Starting research with web search" s
  if success then
    log_action "ResearchAgent" "Research completed"
      { s1 with research_findings := some () }
  else add_error "ResearchAgent" ("Research failed: ".data ++ errMsg) s1

/-- `ExpertAgent.run`: on success store the feedback and log completion; on
any raised error record `f"Expert validation failed: {e}"`. -/
def expertRun (success : Bool) (errMsg : List Char) (s : MState) : MState :=
  let s1 := log_action "ExpertAgent" "Starting expert validation" s
  if success then
    log_action "ExpertAgent" "Expert validation completed"
      { s1 with expert_feedback := some () }
  else add_error "ExpertAgent" ("Expert validation failed: ".data ++ errMsg) s1

/-! ## The orchestrator (`app/workflow/graph.py`) -/

/-- `should_continue`: `"finalize"` when approved or when the iteration
counter has reached the configured ceiling, else `"continue"`. -/
def should_continue (maxIterations : Nat) (s : MState) : String :=
  if s.approved then "finalize"
  else if maxIterations ≤ s.iteration then "finalize"
  else "continue"

/-- `finalize_node`: stamp completion and copy the current draft (possibly
absent) into the final-output field; both branches of the source store the
same value and differ only in logging. -/
def finalize_node (s : MState) : MState :=
  { s with completed := true, final_output := some s.draft_curriculum }

/-- The nodes of the compiled LangGraph workflow, plus the terminal `END`. -/
inductive WNode where
  | research | curriculum | expert | quality | finalize | done
deriving DecidableEq

/-- One transition of the workflow graph.  Stage nondeterminism (the remote
generator, the search provider, the slugifier) appears as constructor
arguments; the conditional edge out of `quality` applies `should_continue`
to the state produced by `QualityAgent.run`. -/
inductive WStep (maxIterations : Nat) (threshold : ℚ) :
    WNode × MState → WNode × MState → Prop where
  | research (ok : Bool) (e : List Char) (s : MState) :
      WStep maxIterations threshold (.research, s) (.curriculum, researchRun ok e s)
  | curriculum (slug : String → String)
      (search : String → Except (List Char) (List SearchItem))
      (gen : Except (List Char) GenDoc) (s : MState) :
      WStep maxIterations threshold (.curriculum, s)
        (.expert, curriculumRun slug search gen s)
  | expert (ok : Bool) (e : List Char) (s : MState) :
      WStep maxIterations threshold (.expert, s) (.quality, expertRun ok e s)
  | quality_continue (gen : Except (List Char) QualityResponse) (s : MState)
      (h : should_continue maxIterations (qualityRun threshold gen s) = "continue") :
      WStep maxIterations threshold (.quality, s)
        (.curriculum, qualityRun threshold gen s)
  | quality_finalize (gen : Except (List Char) QualityResponse) (s : MState)
      (h : should_continue maxIterations (qualityRun threshold gen s) = "finalize") :
      WStep maxIterations threshold (.quality, s)
        (.finalize, qualityRun threshold gen s)
  | finalize (s : MState) :
      WStep maxIterations threshold (.finalize, s) (.done, finalize_node s)

/-! ## The Resource Validator (`app/services/validation_service.py`)

The HTTP probes are collaborators: `head` and `get` give each URL's probe
outcome.  `ProbeOutcome.exn` is an error caught by the `except Exception`
clause of `validate_url`; `ProbeOutcome.fatal` is one that is not (e.g. a
cancellation), which therefore escapes `validate_url` and is captured by
`asyncio.gather(..., return_exceptions=True)`.  The semaphore bounds
concurrency only and has no effect on the returned values. -/

/-- Outcome of one HTTP probe. -/
inductive ProbeOutcome where
  | resp (status : Nat) (contentType : Option String)
  | timeout
  | exn (msg : List Char)
  | fatal (msg : List Char)
deriving DecidableEq

/-- A validation-result dict.  The fallback row built in `validate_batch`'s
exception branch carries no `status_code`/`content_type` keys, modelled as
`none`; `resource_title` is absent (`none`) until `validate_with_limit`
adds it. -/
structure VRow where
  url : String
  accessible : Bool
  status_code : Option Nat
  content_type : Option String
  error : Option (List Char)
  resource_title : Option String
deriving DecidableEq

/-- An input resource dict (`url` is required by the code, `title` optional). -/
structure BatchResource where
  url : String
  title : Option String
deriving DecidableEq

/-- `ResourceValidator.validate_url`: HEAD probe, escalating to GET when the
HEAD status is a client/server error; timeouts give an `error="Timeout"` row
and caught exceptions give an `error=str(e)` row, while an uncatchable
error propagates (`Except.error`). -/
def validate_url (head get : String → ProbeOutcome) (url : String) :
    Except (List Char) VRow :=
  match head url with
  | .timeout => .ok ⟨url, false, none, none, some "Timeout".data, none⟩
  | .exn m => .ok ⟨url, false, none, none, some m, none⟩
  | .fatal m => .error m
  | .resp st ct =>
    if 400 ≤ st then
      match get url with
      | .timeout => .ok ⟨url, false, none, none, some "Timeout".data, none⟩
      | .exn m => .ok ⟨url, false, none, none, some m, none⟩
      | .fatal m => .error m
      | .resp st2 ct2 =>
        .ok ⟨url, decide (st2 < 400), some st2, some (ct2.getD "unknown"), none, none⟩
    else .ok ⟨url, decide (st < 400), some st, some (ct.getD "unknown"), none, none⟩

/-- The `validate_with_limit` closure: probe the resource's url and add the
`resource_title` key. -/
def validate_with_limit (head get : String → ProbeOutcome) (r : BatchResource) :
    Except (List Char) VRow :=
  (validate_url head get r.url).map fun row =>
    { row with resource_title := some (r.title.getD "Unknown") }

/-- The post-`gather` processing of one task outcome: a captured exception is
converted to an inaccessible row carrying `str(e)` and the resource's
title. -/
def batchRowFor (head get : String → ProbeOutcome) (r : BatchResource) : VRow :=
  match validate_with_limit head get r with
  | .error m => ⟨r.url, false, none, none, some m, some (r.title.getD "Unknown")⟩
  | .ok row => row

/-- `ResourceValidator.validate_batch`: run every probe (gather preserves
input order; `maxConcurrent` only bounds parallelism) and convert captured
exceptions into fallback rows. -/
def validate_batch (head get : String → ProbeOutcome)
    (resources : List BatchResource) (_maxConcurrent : Nat) : List VRow :=
  let results := resources.map (validate_with_limit head get)
  (results.zip resources).map fun pr =>
    match pr.1 with
    | .error m => ⟨pr.2.url, false, none, none, some m, some (pr.2.title.getD "Unknown")⟩
    | .ok row => row

/-! ## Message preparation in `generate_json` (`app/core/llm.py`, lines 105-116)

Python message dicts are heap objects aliased by lists; the heap is a list of
message records and a caller's `messages` list is a list of references into
it.  `messages.copy()` copies only the outer list, so the instruction
concatenation mutates the dict the caller's own list still points to. -/

/-- A chat message record (`{"role": ..., "content": ...}`). -/
structure ChatMsg where
  role : String
  content : String
deriving DecidableEq

/-- The instruction appended to the final user turn by `generate_json`. -/
def jsonInstruction : String :=
  "\n\nRespond ONLY with valid JSON. Do not include any thoughts, explanations, or markdown formatting."

/-- Dereference a message object. -/
def heapGet (h : List ChatMsg) (r : Nat) : ChatMsg := h.getD r ⟨"", ""⟩

/-- The message-preparation prefix of `generate_json`:
`json_messages = messages.copy()` (same references), then, when the final
message exists and has role `"user"`, concatenate the JSON instruction onto
that shared object's `content` in place.  Returns the updated heap and the
`json_messages` reference list that is sent. -/
def generate_json_prep (h : List ChatMsg) (messages : List Nat) :
    List ChatMsg × List Nat :=
  let json_messages := messages
  match json_messages.getLast? with
  | none => (h, json_messages)
  | some r =>
    if (heapGet h r).role = "user" then
      (h.set r { heapGet h r with content := (heapGet h r).content ++ jsonInstruction },
       json_messages)
    else (h, json_messages)

/-! ## Concrete instances used by counterexamples and witnesses

The slugifier and the search provider are external collaborators; concrete
runs instantiate them with an identity slug and a results-free search. -/

/-- A concrete slugifier instance (identity) for evaluating concrete runs. -/
def idSlug : String → String := fun s => s

/-- A concrete search-collaborator instance returning no results. -/
def noSearch : String → Except (List Char) (List SearchItem) := fun _ => .ok []

/-- A connection-class error message, as produced by `generate`'s
`httpx.ConnectError` handler. -/
def wConnMsg : List Char := "CONNECTION_ERROR: connection dropped".data

/-- Quality review with sub-scores `{0.9, 0.9, 0.876, 0.8, 0.8, 0.8}`:
exact mean 0.846, which Python rounds to 0.85. -/
def qr846 : QualityResponse :=
  ⟨some true, some 0.9, some [0.9, 0.9, 0.876, 0.8, 0.8, 0.8], some 0⟩

/-- A rejecting quality review (stage bit false, low scores). -/
def qrReject : QualityResponse :=
  ⟨some false, some 0.2, some [0.2, 0.2, 0.2, 0.2, 0.2, 0.2], some 3⟩

/-- Workflow state at iteration 1 (first pass through the gate). -/
def qcState1 : MState := { create_initial_state "graph traversal" with iteration := 1 }

/-- Workflow state at iteration 2 — the configured `MAX_ITERATIONS`. -/
def qcState2 : MState := { create_initial_state "graph traversal" with iteration := 2 }

/-- Workflow state at iteration 5 — the hard-coded forcing ceiling. -/
def qcState5 : MState := { create_initial_state "graph traversal" with iteration := 5 }

/-- A generated document missing its `id` key. -/
def docNoId : GenDoc := ⟨none, some "T", some [⟨some "p1", some [⟨some "t1", some []⟩]⟩], some 7, some 10⟩

/-- A generated document whose phase list is empty (all required keys
present, declared total 7). -/
def docEmptyPhases : GenDoc := ⟨some "x", some "T", some [], some 7, some 10⟩

/-- The spec's structuring example: 2 phases with 3 and 4 tasks, declared
total 15. -/
def docTwoPhases : GenDoc :=
  ⟨some "graph-traversal", some "Graph Traversal", some
    [⟨some "p1", some [⟨some "t1", some []⟩, ⟨some "t2", some []⟩, ⟨some "t3", some []⟩]⟩,
     ⟨some "p2", some [⟨some "t4", some []⟩, ⟨some "t5", some []⟩, ⟨some "t6", some []⟩,
       ⟨some "t7", some []⟩]⟩],
    some 15, some 80⟩

/-- A review missing the `scores` key. -/
def qrNoScores : QualityResponse := ⟨some true, some 0.9, none, some 0⟩

/-- Probe collaborators for the batch-validation witness: the HEAD probe of
`"u3"` fails with an uncatchable error, every other probe succeeds. -/
def wHead : String → ProbeOutcome :=
  fun u => if u = "u3" then .fatal "boom".data else .resp 200 (some "text/html")

/-- GET probe instance: always 200. -/
def wGet : String → ProbeOutcome := fun _ => .resp 200 (some "text/html")

/-- Five input resources; probing the third raises. -/
def wResources : List BatchResource :=
  [⟨"u1", some "R1"⟩, ⟨"u2", none⟩, ⟨"u3", some "R3"⟩, ⟨"u4", none⟩, ⟨"u5", none⟩]

/-- A two-message heap: a system turn and a user turn. -/
def wHeap : List ChatMsg := [⟨"system", "sys"⟩, ⟨"user", "hello"⟩]

/-- Sub-scores with one value below 0.8 (the claim's 0.79 example). -/
def wScores79 : List ℚ := [0.9, 0.9, 0.9, 0.9, 0.9, 0.79]

/-- The per-node iteration-counter invariant of the workflow graph: the
entry node has a fresh counter, the structuring node is entered only with a
counter that may still be incremented within the ceiling, and every other
node is bounded by `maxIterations + 1`. -/
def iterInv (mi : Nat) : WNode → MState → Prop
  | .research, s => s.iteration = 0
  | .curriculum, s => s.iteration = 0 ∨ s.iteration < mi
  | _, s => s.iteration ≤ mi + 1

/-- Initial state of the concrete orchestrator run used as a witness. -/
def wS0 : MState := create_initial_state "graph traversal"

/-- Final state of the concrete orchestrator run used as a witness (every
generation call fails, so the single cycle finalizes unapproved, which with
a ceiling of 0 routes straight to finalization). -/
def wFinalState : MState :=
  finalize_node (qualityRun 0.85 (.error "e".data)
    (expertRun true [] (curriculumRun idSlug noSearch (.error "x".data)
      (researchRun true [] wS0))))

/-! # Theorems -/

/-! ## Quality-gate helper lemmas -/

/-- On a response with all four required keys and a non-empty sub-score
dict, `qualityBody` returns the mutated response (rounded recomputed score,
recomputed approval) and the approval bit. -/
theorem qualityBody_ok (threshold : ℚ) (b : Bool) (q : ℚ) (scores : List ℚ) (vs : Nat)
    (hne : scores ≠ []) :
    qualityBody threshold ⟨some b, some q, some scores, some vs⟩ =
      .ok (⟨some (b && decide (threshold ≤ pyRound2 (scores.sum / (scores.length : ℚ)))
              && (scores.all fun v => decide ((0.8 : ℚ) ≤ v))),
            some (pyRound2 (scores.sum / (scores.length : ℚ))), some scores, some vs⟩,
           b && decide (threshold ≤ pyRound2 (scores.sum / (scores.length : ℚ)))
              && (scores.all fun v => decide ((0.8 : ℚ) ≤ v))) := by
  have hlen : ¬ scores.length = 0 := by simpa using hne
  simp [qualityBody, requiredQualityKeyMissing, hlen]

/-- The `approved` flag stored by a successful quality review: the code's
conjunction (stage bit ∧ rounded mean ≥ threshold ∧ all sub-scores ≥ 0.8),
overridden to true when the iteration counter has reached the hard-coded 5. -/
theorem qualityRun_ok_approved (threshold : ℚ) (b : Bool) (q : ℚ) (scores : List ℚ)
    (vs : Nat) (s : MState) (hne : scores ≠ []) :
    (qualityRun threshold (.ok ⟨some b, some q, some scores, some vs⟩) s).approved =
      ((b && decide (threshold ≤ pyRound2 (scores.sum / (scores.length : ℚ)))
          && (scores.all fun v => decide ((0.8 : ℚ) ≤ v)))
        || decide (5 ≤ s.iteration)) := by
  unfold qualityRun
  simp only [qualityBody_ok threshold b q scores vs hne]
  by_cases h5 : 5 ≤ s.iteration
  · cases hb : (b && decide (threshold ≤ pyRound2 (scores.sum / (scores.length : ℚ)))
        && (scores.all fun v => decide ((0.8 : ℚ) ≤ v))) <;>
      simp [log_action, hb, h5]
  · simp [log_action, h5]

/-! ## C1 — the quality gate's approval formula -/

/-- C1 counterexample: with sub-scores `{0.9, 0.9, 0.876, 0.8, 0.8, 0.8}`
(exact mean 0.846), stage bit true, threshold 0.85 and iteration 1, the
code stores `approved = true` — `round(0.846, 2) = 0.85 ≥ 0.85` — while the
claim's conjunction uses the exact mean (`0.846 ≥ 0.85` is false), so the
claimed equality fails. -/
theorem C1_counterexample :
    ¬ ((qualityRun Settings.QUALITY_THRESHOLD (.ok qr846) qcState1).approved =
        specApproved Settings.QUALITY_THRESHOLD true [0.9, 0.9, 0.876, 0.8, 0.8, 0.8]) := by
  have h1 : (qualityRun Settings.QUALITY_THRESHOLD (.ok qr846) qcState1).approved = true := by
    simp [qualityRun, qualityBody, qr846, requiredQualityKeyMissing, log_action, add_error,
      qcState1, create_initial_state, Settings.QUALITY_THRESHOLD, List.sum]
    norm_num [pyRound2, roundHalfToEven]
  have h2 : specApproved Settings.QUALITY_THRESHOLD true [0.9, 0.9, 0.876, 0.8, 0.8, 0.8]
      = false := by
    simp [specApproved, Settings.QUALITY_THRESHOLD, List.sum]
    norm_num
  rw [h1, h2]
  simp

/-- C1 amended: for a successful quality review (all four required keys
present, non-empty sub-score dict) in a run where the hard-coded forcing
clause does not trigger (iteration < 5), the stored `approved` equals:
stage bit ∧ mean ROUNDED TO 2 DECIMALS ≥ threshold ∧ every sub-score ≥ 0.8.
In particular a 0.79 sub-score always yields `approved = false`. -/
theorem C1_quality_gate_approved (threshold : ℚ) (b : Bool) (q : ℚ) (scores : List ℚ)
    (vs : Nat) (s : MState) (hne : scores ≠ []) (hiter : s.iteration < 5) :
    (qualityRun threshold (.ok ⟨some b, some q, some scores, some vs⟩) s).approved =
      (b && decide (threshold ≤ pyRound2 (scores.sum / (scores.length : ℚ)))
         && (scores.all fun v => decide ((0.8 : ℚ) ≤ v))) := by
  rw [qualityRun_ok_approved threshold b q scores vs s hne]
  simp [Nat.not_le.mpr hiter]

/-- Witness for C1: the claim's own instance — stage bit true with one
sub-score 0.79 at iteration 0 and threshold 0.85. -/
theorem C1_quality_gate_approved_witness :
    wScores79 ≠ [] ∧ (create_initial_state "t").iteration < 5 ∧
    (qualityRun 0.85 (.ok ⟨some true, some 0.9, some wScores79, some 0⟩)
        (create_initial_state "t")).approved =
      (true && decide ((0.85 : ℚ) ≤ pyRound2 (wScores79.sum / (wScores79.length : ℚ)))
         && (wScores79.all fun v => decide ((0.8 : ℚ) ≤ v))) :=
  ⟨by decide, by decide,
    C1_quality_gate_approved 0.85 true 0.9 wScores79 0 (create_initial_state "t")
      (by decide) (by decide)⟩

/-! ## C2 — forced approval at the iteration ceiling -/

/-- C2 counterexample: at `iteration = MAX_ITERATIONS = 2` a completed,
rejecting quality review leaves `approved = false` — the claimed forcing
does not happen at the configured ceiling. -/
theorem C2_counterexample :
    qcState2.iteration = Settings.MAX_ITERATIONS ∧
    (qualityRun Settings.QUALITY_THRESHOLD (.ok qrReject) qcState2).approved = false := by
  refine ⟨by decide, ?_⟩
  simp [qualityRun, qualityBody, qrReject, requiredQualityKeyMissing, log_action, add_error,
    qcState2, create_initial_state, Settings.QUALITY_THRESHOLD, List.sum]

/-- C2 amended: the Quality Gate forces `approved = true` only when the
iteration counter has reached the HARD-CODED literal 5 (not the configured
`MAX_ITERATIONS`): every successful review at iteration ≥ 5 ends with the
state approved. -/
theorem C2_forced_approval (threshold : ℚ) (b : Bool) (q : ℚ) (scores : List ℚ)
    (vs : Nat) (s : MState) (hne : scores ≠ []) (h5 : 5 ≤ s.iteration) :
    (qualityRun threshold (.ok ⟨some b, some q, some scores, some vs⟩) s).approved = true := by
  rw [qualityRun_ok_approved threshold b q scores vs s hne]
  simp [h5]

/-- Witness for C2: a rejecting review at iteration 5 ends approved. -/
theorem C2_forced_approval_witness :
    ((0.2 : ℚ) :: [0.2, 0.2, 0.2, 0.2, 0.2] ≠ []) ∧ 5 ≤ qcState5.iteration ∧
    (qualityRun 0.85 (.ok ⟨some false, some 0.2, some ((0.2 : ℚ) :: [0.2, 0.2, 0.2, 0.2, 0.2]),
        some 3⟩) qcState5).approved = true :=
  ⟨by decide, by decide,
    C2_forced_approval 0.85 false 0.2 ((0.2 : ℚ) :: [0.2, 0.2, 0.2, 0.2, 0.2]) 3 qcState5
      (by decide) (by decide)⟩

/-! ## C3 — orchestrator iteration and routing invariants -/

/-- `ResearchAgent.run` never changes the iteration counter. -/
theorem researchRun_iteration (ok : Bool) (e : List Char) (s : MState) :
    (researchRun ok e s).iteration = s.iteration := by
  cases ok <;> simp [researchRun, log_action, add_error]

/-- `ExpertAgent.run` never changes the iteration counter. -/
theorem expertRun_iteration (ok : Bool) (e : List Char) (s : MState) :
    (expertRun ok e s).iteration = s.iteration := by
  cases ok <;> simp [expertRun, log_action, add_error]

/-- `CurriculumAgent.run` increments the iteration counter on every entry,
whatever the generation outcome. -/
theorem curriculumRun_iteration (slug : String → String)
    (search : String → Except (List Char) (List SearchItem))
    (gen : Except (List Char) GenDoc) (s : MState) :
    (curriculumRun slug search gen s).iteration = s.iteration + 1 := by
  cases gen with
  | error e => simp [curriculumRun, log_action, add_error]
  | ok doc =>
    cases h : curriculumValidate slug doc <;>
      simp [curriculumRun, log_action, add_error, h]

/-- `QualityAgent.run` never changes the iteration counter. -/
theorem qualityRun_iteration (th : ℚ) (gen : Except (List Char) QualityResponse)
    (s : MState) : (qualityRun th gen s).iteration = s.iteration := by
  cases gen with
  | error e => simp [qualityRun, log_action, add_error]
  | ok resp =>
    cases h : qualityBody th resp with
    | error e => simp [qualityRun, log_action, add_error, h]
    | ok pr =>
      obtain ⟨resp2, appr⟩ := pr
      simp only [qualityRun, h, log_action]
      split <;> simp [log_action]

/-- A `"continue"` verdict means: not approved and strictly below the
configured ceiling. -/
theorem should_continue_continue {mi : Nat} {s : MState}
    (h : should_continue mi s = "continue") :
    s.approved = false ∧ s.iteration < mi := by
  by_cases ha : s.approved
  · simp [should_continue, ha] at h
  · by_cases hi : mi ≤ s.iteration
    · simp [should_continue, ha, hi] at h
    · exact ⟨by simpa using ha, by omega⟩

/-- An approved state always routes to finalization. -/
theorem should_continue_of_approved {mi : Nat} {s : MState} (h : s.approved = true) :
    should_continue mi s = "finalize" := by
  simp [should_continue, h]

/-- Every single workflow transition keeps the iteration counter
non-decreasing. -/
theorem wstep_iteration_le {mi : Nat} {th : ℚ} {p q : WNode × MState}
    (h : WStep mi th p q) : p.2.iteration ≤ q.2.iteration := by
  cases h with
  | research ok e s => simp [researchRun_iteration]
  | curriculum slug search gen s => simp [curriculumRun_iteration]
  | expert ok e s => simp [expertRun_iteration]
  | quality_continue gen s hc => simp [qualityRun_iteration]
  | quality_finalize gen s hc => simp [qualityRun_iteration]
  | finalize s => simp [finalize_node]

/-- The iteration counter is non-decreasing along any execution. -/
theorem wrtg_iteration_le {mi : Nat} {th : ℚ} {p q : WNode × MState}
    (h : Relation.ReflTransGen (WStep mi th) p q) :
    p.2.iteration ≤ q.2.iteration := by
  induction h with
  | refl => exact le_refl _
  | tail hab hstep ih => exact le_trans ih (wstep_iteration_le hstep)

/-- The per-node iteration invariant is preserved by every transition. -/
theorem iterInv_step {mi : Nat} {th : ℚ} {p q : WNode × MState} (h : WStep mi th p q)
    (hp : iterInv mi p.1 p.2) : iterInv mi q.1 q.2 := by
  cases h with
  | research ok e s =>
    have hp' : s.iteration = 0 := hp
    exact Or.inl (by rw [researchRun_iteration]; exact hp')
  | curriculum slug search gen s =>
    have hp' : s.iteration = 0 ∨ s.iteration < mi := hp
    show (curriculumRun slug search gen s).iteration ≤ mi + 1
    rw [curriculumRun_iteration]
    omega
  | expert ok e s =>
    have hp' : s.iteration ≤ mi + 1 := hp
    show (expertRun ok e s).iteration ≤ mi + 1
    rw [expertRun_iteration]; exact hp'
  | quality_continue gen s hc =>
    exact Or.inr (should_continue_continue hc).2
  | quality_finalize gen s hc =>
    have hp' : s.iteration ≤ mi + 1 := hp
    show (qualityRun th gen s).iteration ≤ mi + 1
    rw [qualityRun_iteration]; exact hp'
  | finalize s =>
    have hp' : s.iteration ≤ mi + 1 := hp
    show (finalize_node s).iteration ≤ mi + 1
    exact hp'

/-- The per-node iteration invariant holds at every reachable
configuration. -/
theorem iterInv_reach {mi : Nat} {th : ℚ} {p q : WNode × MState}
    (h : Relation.ReflTransGen (WStep mi th) p q)
    (hp : iterInv mi p.1 p.2) : iterInv mi q.1 q.2 := by
  induction h with
  | refl => exact hp
  | tail hab hstep ih => exact iterInv_step hstep ih

/-- C3: along every orchestrator run the iteration counter is monotonically
non-decreasing; a run completed from a fresh state ends with iteration ≤
`max_iterations + 1`; the conditional edge out of the gating node reaches
the structuring node only in an unapproved state; and an approved state
always routes to finalization. -/
theorem C3_orchestrator_invariants (mi : Nat) (th : ℚ) :
    (∀ p q : WNode × MState, Relation.ReflTransGen (WStep mi th) p q →
        p.2.iteration ≤ q.2.iteration) ∧
    (∀ s0 s : MState, s0.iteration = 0 →
        Relation.ReflTransGen (WStep mi th) (.research, s0) (.done, s) →
        s.iteration ≤ mi + 1) ∧
    (∀ s s' : MState, WStep mi th (.quality, s) (.curriculum, s') →
        s'.approved = false) ∧
    (∀ s : MState, s.approved = true → should_continue mi s = "finalize") := by
  refine ⟨fun p q h => wrtg_iteration_le h, fun s0 s h0 h => ?_, fun s s' h => ?_,
    fun s h => should_continue_of_approved h⟩
  · exact iterInv_reach h h0
  · cases h with
    | quality_continue gen _ hc => exact (should_continue_continue hc).1

/-- Witness for C3: a complete concrete run (ceiling 0, all generations
failing) from the fresh state to the terminal node, whose final iteration
counter respects the bound. -/
theorem C3_orchestrator_invariants_witness : wFinalState.iteration ≤ 0 + 1 :=
  (C3_orchestrator_invariants 0 0.85).2.1 wS0 wFinalState rfl
    (Relation.ReflTransGen.head (WStep.research true [] wS0)
      (Relation.ReflTransGen.head
        (WStep.curriculum idSlug noSearch (.error "x".data) _)
        (Relation.ReflTransGen.head (WStep.expert true [] _)
          (Relation.ReflTransGen.head
            (WStep.quality_finalize (.error "e".data) _ (by decide))
            (Relation.ReflTransGen.head (WStep.finalize _) Relation.ReflTransGen.refl)))))

/-! ## C4 — tolerant JSON extraction -/

/-- C4: the extraction pipeline of `generate_json` extracts the fenced json
block's contents from the first example, recovers the object by brace
matching from the second, and on any input that strips to nothing fails
with the empty-output error (`EmptyGenerationOutput`) instead of returning
a document. -/
theorem C4_tolerant_extraction :
    extractJson sampleFencedInput = .extracted sampleJsonObject ∧
    extractJson sampleBraceInput = .extracted sampleJsonObject ∧
    ∀ raw : List Char, pyStrip raw = [] → extractJson raw = .emptyOutput := by
  refine ⟨by decide, by decide, fun raw h => ?_⟩
  unfold extractJson
  rw [h]
  decide

/-- Witness for C4: the all-whitespace input `"  \n "` strips to nothing and
the pipeline fails with the empty-output error. -/
theorem C4_tolerant_extraction_witness :
    pyStrip "  \n ".data = ([] : List Char) ∧
    extractJson "  \n ".data = .emptyOutput :=
  ⟨by decide, C4_tolerant_extraction.2.2 "  \n ".data (by decide)⟩

/-! ## C5 — retry exhaustion on connection failures -/

/-- C5: with an attempt ceiling of 3 and every attempt failing with a
connection-class (`CONNECTION_ERROR`) message, `generate_with_retry` makes
exactly 3 `generate` calls, sleeps `min(2^0,10)` between attempts 1 and 2
and `min(2^1,10)` between attempts 2 and 3 (the source also sleeps
`min(2^2,10)` after the final failure before raising), and raises the
terminal failure message wrapping the last error. -/
theorem C5_retry_exhaustion (outcomes : Nat → GenOutcome)
    (extractDelay : List Char → ℚ) (m0 m1 m2 : List Char)
    (h0 : outcomes 0 = .llmError m0) (h1 : outcomes 1 = .llmError m1)
    (h2 : outcomes 2 = .llmError m2)
    (c0 : containsSub m0 connectionErrorToken = true)
    (c1 : containsSub m1 connectionErrorToken = true)
    (c2 : containsSub m2 connectionErrorToken = true) :
    (generate_with_retry outcomes extractDelay 3).calls = 3 ∧
    (generate_with_retry outcomes extractDelay 3).sleeps =
      [min ((2 : ℚ) ^ 0) 10, min ((2 : ℚ) ^ 1) 10, min ((2 : ℚ) ^ 2) 10] ∧
    (generate_with_retry outcomes extractDelay 3).result =
      .error (failAfterMsg 3 (some m2)) := by
  show (retryLoop outcomes extractDelay 3 3 0 none).calls = 3 ∧ _ ∧ _
  simp [generate_with_retry, retryLoop, h0, h1, h2, retrySleep, c0, c1, c2]

/-- Witness for C5: a constant connection-error outcome stream at ceiling 3. -/
theorem C5_retry_exhaustion_witness :
    (generate_with_retry (fun _ => .llmError wConnMsg) (fun _ => (15 : ℚ)) 3).calls = 3 ∧
    (generate_with_retry (fun _ => .llmError wConnMsg) (fun _ => (15 : ℚ)) 3).sleeps =
      [min ((2 : ℚ) ^ 0) 10, min ((2 : ℚ) ^ 1) 10, min ((2 : ℚ) ^ 2) 10] ∧
    (generate_with_retry (fun _ => .llmError wConnMsg) (fun _ => (15 : ℚ)) 3).result =
      .error (failAfterMsg 3 (some wConnMsg)) :=
  C5_retry_exhaustion (fun _ => .llmError wConnMsg) (fun _ => (15 : ℚ))
    wConnMsg wConnMsg wConnMsg rfl rfl rfl (by decide) (by decide) (by decide)

/-! ## C6 — batch validation: order, per-item isolation -/

/-- `validate_batch` is the elementwise map of the per-resource row builder:
`asyncio.gather` preserves input order and each row depends only on its own
resource. -/
theorem validate_batch_eq_map (head get : String → ProbeOutcome)
    (resources : List BatchResource) (mc : Nat) :
    validate_batch head get resources mc = resources.map (batchRowFor head get) := by
  induction resources with
  | nil => rfl
  | cons r rs ih =>
    have ih' : ((rs.map (validate_with_limit head get)).zip rs).map
        (fun pr => match pr.1 with
          | .error m =>
            (⟨pr.2.url, false, none, none, some m, some (pr.2.title.getD "Unknown")⟩ : VRow)
          | .ok row => row) = rs.map (batchRowFor head get) := ih
    simp only [validate_batch, List.map_cons, List.zip_cons_cons, List.map_cons] at *
    rw [ih']
    rfl

/-- C6: `validate_batch` returns exactly one result per input resource, in
input order (it is the elementwise map of the row builder, so each row is a
function of its own resource alone and no error propagates out of the batch
call), and a probe error escaping the per-URL handler yields a row with
`accessible = false` carrying the error message. -/
theorem C6_validate_batch (head get : String → ProbeOutcome)
    (resources : List BatchResource) (mc : Nat) :
    validate_batch head get resources mc = resources.map (batchRowFor head get) ∧
    (validate_batch head get resources mc).length = resources.length ∧
    (∀ r m, validate_with_limit head get r = .error m →
      (batchRowFor head get r).accessible = false ∧
      (batchRowFor head get r).error = some m) := by
  refine ⟨validate_batch_eq_map head get resources mc, ?_, ?_⟩
  · rw [validate_batch_eq_map]; simp
  · intro r m h
    simp [batchRowFor, h]

/-- Witness for C6: five resources under concurrency bound 2, the third
probe raising; the batch keeps length and order and marks the third row
inaccessible with the error attached. -/
theorem C6_validate_batch_witness :
    validate_batch wHead wGet wResources 2 = wResources.map (batchRowFor wHead wGet) ∧
    (validate_batch wHead wGet wResources 2).length = wResources.length ∧
    ((batchRowFor wHead wGet ⟨"u3", some "R3"⟩).accessible = false ∧
     (batchRowFor wHead wGet ⟨"u3", some "R3"⟩).error = some "boom".data) :=
  ⟨(C6_validate_batch wHead wGet wResources 2).1,
   (C6_validate_batch wHead wGet wResources 2).2.1,
   (C6_validate_batch wHead wGet wResources 2).2.2 ⟨"u3", some "R3"⟩ "boom".data (by decide)⟩

/-! ## C7 — the recomputed total task count -/

/-- A successful phase check returns exactly the sum of per-phase task
counts. -/
theorem phasesCheck_ok_sum (ps : List MPhase) (n : Nat) (h : phasesCheck ps = .ok n) :
    n = (ps.map fun p => (p.tasks.getD []).length).sum := by
  induction ps generalizing n with
  | nil =>
    simp only [phasesCheck] at h
    cases h
    simp
  | cons p rest ih =>
    cases hp : p.tasks with
    | none => simp [phasesCheck, hp] at h
    | some ts =>
      cases ts with
      | nil => simp [phasesCheck, hp] at h
      | cons t ts' =>
        rw [phasesCheck, hp] at h
        cases hr : phasesCheck rest with
        | error e => rw [hr] at h; simp [Except.map] at h
        | ok m =>
          rw [hr] at h
          simp only [Except.map] at h
          cases h
          simp [hp, ih m hr]

/-- Resource enrichment keeps the number of tasks of a task list. -/
theorem enrichTasks_length (topic : String)
    (search : String → Except (List Char) (List SearchItem))
    (c : Nat) (ts : List MTask) :
    (enrichTasks topic search c ts).1.length = ts.length := by
  induction ts generalizing c with
  | nil => rfl
  | cons t ts ih =>
    by_cases h5 : 5 ≤ c
    · simp [enrichTasks, h5]
    · simp [enrichTasks, h5, ih]

/-- Resource enrichment keeps the per-phase task counts of a phase list. -/
theorem enrichPhases_taskCounts (topic : String)
    (search : String → Except (List Char) (List SearchItem))
    (c : Nat) (ps : List MPhase) :
    (enrichPhases topic search c ps).1.map (fun p => (p.tasks.getD []).length) =
      ps.map fun p => (p.tasks.getD []).length := by
  induction ps generalizing c with
  | nil => rfl
  | cons p ps ih =>
    cases hp : p.tasks with
    | none => simp [enrichPhases, hp, ih]
    | some ts => simp [enrichPhases, hp, ih, enrichTasks_length]

/-- Resource enrichment keeps both the per-phase task counts and the
declared total of a document. -/
theorem enrichCurriculum_taskCounts (topic : String)
    (search : String → Except (List Char) (List SearchItem)) (d : GenDoc) :
    taskCounts (enrichCurriculum topic search d) = taskCounts d ∧
    (enrichCurriculum topic search d).total_tasks = d.total_tasks := by
  cases hp : d.phases with
  | none => simp [enrichCurriculum, hp]
  | some ps => simp [enrichCurriculum, hp, taskCounts, enrichPhases_taskCounts]

/-- An accepted document's stored total equals the sum of its per-phase task
counts. -/
theorem curriculumValidate_ok_total (slug : String → String) (d d1 : GenDoc)
    (h : curriculumValidate slug d = .ok d1) :
    d1.total_tasks = some (((taskCounts d1).sum : Nat) : Int) := by
  unfold curriculumValidate at h
  cases hk : requiredCurriculumKeyMissing d with
  | some k => rw [hk] at h; simp at h
  | none =>
    simp only [hk] at h
    cases ht : phasesCheck (d.phases.getD []) with
    | error e => rw [ht] at h; simp at h
    | ok total =>
      rw [ht] at h
      cases h
      have htot : total = (taskCounts d).sum := by
        simpa [taskCounts] using phasesCheck_ok_sum _ total ht
      simp [taskCounts, htot]

/-- C7: whenever the structuring stage accepts a generated document, the
draft it stores carries a `total_tasks` equal to the sum over all phases of
the number of tasks in that phase — independent of the value the generator
declared (which does not occur in the statement). -/
theorem C7_total_tasks (slug : String → String)
    (search : String → Except (List Char) (List SearchItem))
    (s : MState) (doc d1 : GenDoc)
    (hacc : curriculumValidate slug doc = .ok d1) :
    ∃ d2, (curriculumRun slug search (.ok doc) s).draft_curriculum = some d2 ∧
      d2.total_tasks = some (((taskCounts d2).sum : Nat) : Int) := by
  refine ⟨enrichCurriculum s.topic search d1, ?_, ?_⟩
  · simp [curriculumRun, hacc, log_action, add_error]
  · rw [(enrichCurriculum_taskCounts s.topic search d1).2,
      (enrichCurriculum_taskCounts s.topic search d1).1]
    exact curriculumValidate_ok_total slug doc d1 hacc

/-- Witness for C7: the spec's example document — 2 phases with 3 and 4
tasks, declared total 15 — is stored with total 7 (= its recomputed sum). -/
theorem C7_total_tasks_witness :
    ∃ d2, (curriculumRun idSlug noSearch (.ok docTwoPhases)
        (create_initial_state "t")).draft_curriculum = some d2 ∧
      d2.total_tasks = some (((taskCounts d2).sum : Nat) : Int) :=
  C7_total_tasks idSlug noSearch (create_initial_state "t") docTwoPhases
    { docTwoPhases with id := some "graph-traversal", total_tasks := some 7 } (by decide)

/-! ## C8 — which documents the structuring stage rejects -/

/-- The required-key scan succeeds exactly when all five keys are present. -/
theorem requiredCurriculumKeyMissing_none_iff (d : GenDoc) :
    requiredCurriculumKeyMissing d = none ↔
      (d.id ≠ none ∧ d.title ≠ none ∧ d.phases ≠ none ∧ d.total_tasks ≠ none ∧
       d.estimated_hours ≠ none) := by
  unfold requiredCurriculumKeyMissing
  split_ifs <;> simp_all

/-- The phase check succeeds exactly when every phase carries a non-empty
task list — vacuously so for an empty phase list. -/
theorem phasesCheck_ok_iff (ps : List MPhase) :
    (∃ n, phasesCheck ps = .ok n) ↔
      ∀ p ∈ ps, ∃ ts, p.tasks = some ts ∧ ts ≠ [] := by
  induction ps with
  | nil => simp [phasesCheck]
  | cons p rest ih =>
    cases hp : p.tasks with
    | none => simp [phasesCheck, hp]
    | some ts =>
      cases ts with
      | nil => simp [phasesCheck, hp]
      | cons t ts' =>
        cases hr : phasesCheck rest with
        | error e =>
          have hrest : ¬ ∀ p ∈ rest, ∃ ts, p.tasks = some ts ∧ ts ≠ [] := by
            rw [← ih]; simp [hr]
          simp [phasesCheck, hp, hr, Except.map, hrest]
        | ok m =>
          have hrest : ∀ p ∈ rest, ∃ ts, p.tasks = some ts ∧ ts ≠ [] := by
            rw [← ih]; exact ⟨m, hr⟩
          simp [phasesCheck, hp, hr, Except.map]
          exact hrest

/-- C8 counterexample: a document with an EMPTY phase list (all five
required keys present) is ACCEPTED — the per-phase loop never runs — and is
stored as the draft with total 0, though the claim requires rejection. -/
theorem C8_counterexample :
    curriculumValidate idSlug docEmptyPhases =
      .ok ⟨some "x", some "T", some [], some 0, some 10⟩ ∧
    (curriculumRun idSlug noSearch (.ok docEmptyPhases)
        (create_initial_state "t")).draft_curriculum =
      some ⟨some "x", some "T", some [], some 0, some 10⟩ :=
  ⟨by decide, by decide⟩

/-- C8 amended: the structuring stage accepts a generated document exactly
when it carries all of `id`, `title`, `phases`, `total_tasks` and
`estimated_hours` AND every phase in its (possibly empty) phase list has a
non-empty task list; an empty phase list itself is NOT rejected. -/
theorem C8_structuring_acceptance (slug : String → String) (d : GenDoc) :
    (∃ d1, curriculumValidate slug d = .ok d1) ↔
      (d.id ≠ none ∧ d.title ≠ none ∧ d.phases ≠ none ∧ d.total_tasks ≠ none ∧
       d.estimated_hours ≠ none ∧
       ∀ p ∈ d.phases.getD [], ∃ ts, p.tasks = some ts ∧ ts ≠ []) := by
  constructor
  · rintro ⟨d1, h⟩
    unfold curriculumValidate at h
    cases hk : requiredCurriculumKeyMissing d with
    | some k => rw [hk] at h; simp at h
    | none =>
      obtain ⟨h1, h2, h3, h4, h5⟩ := (requiredCurriculumKeyMissing_none_iff d).mp hk
      refine ⟨h1, h2, h3, h4, h5, ?_⟩
      simp only [hk] at h
      cases ht : phasesCheck (d.phases.getD []) with
      | error e => rw [ht] at h; simp at h
      | ok n => exact (phasesCheck_ok_iff _).mp ⟨n, ht⟩
  · rintro ⟨h1, h2, h3, h4, h5, hp⟩
    have hk : requiredCurriculumKeyMissing d = none :=
      (requiredCurriculumKeyMissing_none_iff d).mpr ⟨h1, h2, h3, h4, h5⟩
    obtain ⟨n, hn⟩ := (phasesCheck_ok_iff (d.phases.getD [])).mpr hp
    refine ⟨⟨some (slug (d.id.getD "")), d.title, d.phases, some (n : Int),
      d.estimated_hours⟩, ?_⟩
    unfold curriculumValidate
    simp only [hk, hn]

/-- Witness for C8: the well-formed two-phase document is accepted. -/
theorem C8_structuring_acceptance_witness :
    ∃ d1, curriculumValidate idSlug docTwoPhases = .ok d1 :=
  (C8_structuring_acceptance idSlug docTwoPhases).mpr
    ⟨by decide, by decide, by decide, by decide, by decide, by decide⟩

/-! ## C9 — what a stage-validation failure does to the state -/

/-- C9 counterexample: when the structuring stage's generated document fails
validation (missing `id`), the error is recorded and no draft is stored,
but the rest of the state is NOT unmodified: the iteration counter changed
and the action log grew. -/
theorem C9_counterexample :
    (curriculumRun idSlug noSearch (.ok docNoId) (create_initial_state "t")).errors ≠
      (create_initial_state "t").errors ∧
    (curriculumRun idSlug noSearch (.ok docNoId) (create_initial_state "t")).draft_curriculum =
      (create_initial_state "t").draft_curriculum ∧
    (curriculumRun idSlug noSearch (.ok docNoId) (create_initial_state "t")).iteration ≠
      (create_initial_state "t").iteration ∧
    (curriculumRun idSlug noSearch (.ok docNoId) (create_initial_state "t")).agent_logs ≠
      (create_initial_state "t").agent_logs :=
  ⟨by decide, by decide, by decide, by decide⟩

/-- C9 amended, for every stage: on a generation/validation failure the
stage appends exactly one entry to the error list and writes no
stage-output key, and every other field is unchanged EXCEPT the action log
(which gains the stage's start entry) and — for the structuring stage only
— the iteration counter, which was already incremented before validation.
The four conjuncts cover Discovery, Structuring, Technical Review and the
Quality Gate. -/
theorem C9_stage_failure_frame :
    (∀ (e : List Char) (s : MState),
        researchRun false e s =
          { s with
              errors := s.errors ++
                ["[".data ++ "ResearchAgent".data ++ "] ".data ++
                  ("Research failed: ".data ++ e)],
              agent_logs := s.agent_logs ++
                [⟨"ResearchAgent", "Starting research with web search", s.iteration⟩] }) ∧
    (∀ (slug : String → String)
        (search : String → Except (List Char) (List SearchItem))
        (doc : GenDoc) (s : MState) (e : List Char),
        curriculumValidate slug doc = .error e →
        curriculumRun slug search (.ok doc) s =
          { s with
              iteration := s.iteration + 1,
              errors := s.errors ++
                ["[".data ++ "CurriculumAgent".data ++ "] ".data ++
                  ("Curriculum design failed: ".data ++ e)],
              agent_logs := s.agent_logs ++
                [⟨"CurriculumAgent", "Starting curriculum design", s.iteration⟩] }) ∧
    (∀ (e : List Char) (s : MState),
        expertRun false e s =
          { s with
              errors := s.errors ++
                ["[".data ++ "ExpertAgent".data ++ "] ".data ++
                  ("Expert validation failed: ".data ++ e)],
              agent_logs := s.agent_logs ++
                [⟨"ExpertAgent", "Starting expert validation", s.iteration⟩] }) ∧
    (∀ (threshold : ℚ) (resp : QualityResponse) (s : MState) (k : String),
        requiredQualityKeyMissing resp = some k →
        qualityRun threshold (.ok resp) s =
          { s with
              errors := s.errors ++
                ["[".data ++ "QualityAgent".data ++ "] ".data ++
                  ("Quality review failed: ".data ++
                    ("Missing required key in quality review: ".data ++ k.data))],
              agent_logs := s.agent_logs ++
                [⟨"QualityAgent", "Starting quality review", s.iteration⟩] }) := by
  refine ⟨?_, ?_, ?_, ?_⟩
  · intro e s
    simp [researchRun, log_action, add_error]
  · intro slug search doc s e h
    simp [curriculumRun, h, log_action, add_error]
  · intro e s
    simp [expertRun, log_action, add_error]
  · intro threshold resp s k h
    simp [qualityRun, qualityBody, h, log_action, add_error]

/-- Witness for C9: the missing-`id` document run against the fresh state
(structuring conjunct), plus a failed discovery run against the fresh state
(research conjunct). -/
theorem C9_stage_failure_frame_witness :
    curriculumValidate idSlug docNoId =
      .error ("Missing required key in curriculum: ".data ++ "id".data) ∧
    curriculumRun idSlug noSearch (.ok docNoId) (create_initial_state "t") =
      { create_initial_state "t" with
          iteration := (create_initial_state "t").iteration + 1,
          errors := (create_initial_state "t").errors ++
            ["[".data ++ "CurriculumAgent".data ++ "] ".data ++
              ("Curriculum design failed: ".data ++
                ("Missing required key in curriculum: ".data ++ "id".data))],
          agent_logs := (create_initial_state "t").agent_logs ++
            [⟨"CurriculumAgent", "Starting curriculum design",
              (create_initial_state "t").iteration⟩] } ∧
    researchRun false "boom".data (create_initial_state "t") =
      { create_initial_state "t" with
          errors := (create_initial_state "t").errors ++
            ["[".data ++ "ResearchAgent".data ++ "] ".data ++
              ("Research failed: ".data ++ "boom".data)],
          agent_logs := (create_initial_state "t").agent_logs ++
            [⟨"ResearchAgent", "Starting research with web search",
              (create_initial_state "t").iteration⟩] } :=
  ⟨by decide,
   C9_stage_failure_frame.2.1 idSlug noSearch docNoId (create_initial_state "t")
     ("Missing required key in curriculum: ".data ++ "id".data) (by decide),
   C9_stage_failure_frame.1 "boom".data (create_initial_state "t")⟩

/-! ## C10 — in-place mutation of the caller's final user message -/

/-- Updating a heap cell and reading it back yields the update. -/
theorem heapGet_set (h : List ChatMsg) (r : Nat) (m : ChatMsg) (hr : r < h.length) :
    heapGet (h.set r m) r = m := by
  induction h generalizing r with
  | nil => simp at hr
  | cons a t ih =>
    cases r with
    | zero => rfl
    | succ n =>
      have hn : n < t.length := by simpa using hr
      simpa [heapGet, List.getD_cons_succ] using ih n hn

/-- C10: when the caller's final message has role `"user"`, the
message-preparation step of `generate_json` mutates that shared object in
place — afterwards the content the CALLER's own reference sees is the old
content with the JSON instruction appended — and the sent list holds the
same references; when the final message's role is not `"user"`, the heap is
untouched (nothing is appended anywhere) and the messages are sent
unchanged. -/
theorem C10_generate_json_aliasing (h : List ChatMsg) (messages : List Nat) (r : Nat)
    (hlast : messages.getLast? = some r) (hr : r < h.length) :
    ((heapGet h r).role = "user" →
        heapGet (generate_json_prep h messages).1 r =
          ⟨(heapGet h r).role, (heapGet h r).content ++ jsonInstruction⟩) ∧
    ((heapGet h r).role ≠ "user" → (generate_json_prep h messages).1 = h) ∧
    (generate_json_prep h messages).2 = messages := by
  unfold generate_json_prep
  simp only [hlast]
  by_cases hrole : (heapGet h r).role = "user"
  · rw [if_pos hrole]
    exact ⟨fun _ => heapGet_set h r _ hr, fun hc => absurd hrole hc, rfl⟩
  · rw [if_neg hrole]
    exact ⟨fun hc => absurd hc hrole, fun _ => rfl, rfl⟩

/-- Witness for C10: a system turn followed by a user turn `"hello"`; after
preparation the caller's last message object ends with the instruction. -/
theorem C10_generate_json_aliasing_witness :
    ([0, 1] : List Nat).getLast? = some 1 ∧
    heapGet (generate_json_prep wHeap [0, 1]).1 1 =
      ⟨(heapGet wHeap 1).role, (heapGet wHeap 1).content ++ jsonInstruction⟩ ∧
    (generate_json_prep wHeap [0, 1]).2 = [0, 1] :=
  ⟨rfl, (C10_generate_json_aliasing wHeap [0, 1] 1 rfl (by decide)).1 rfl,
    (C10_generate_json_aliasing wHeap [0, 1] 1 rfl (by decide)).2.2⟩

end LBD

